import Mathlib

/-!
Verification of the MedIntelli Clínica single-file React application
(`App.tsx`, plus an earlier draft of the same file).

The application wires controlled forms to a Supabase backend and to the
OpenAI chat-completion endpoint.  Every event handler of the source is a
straight-line async function; we embed each handler as a pure Lean
function from its React component state (plus the outcomes of the remote
calls it performs, passed as explicit parameters) to the new component
state together with the ordered list of external effects it performs
(database operations, console logging, alert and confirm dialogs, HTTP
requests).
-/

/-- JavaScript `String.prototype.trim`: strip leading and trailing
whitespace.  (`String.trim` of the Lean core library is not used because
its definition does not reduce in the kernel.) -/
def trimStr (s : String) : String :=
  String.mk
    (((s.data.dropWhile (fun c => c.isWhitespace)).reverse.dropWhile
        (fun c => c.isWhitespace)).reverse)

/-- An external effect performed by an event handler, in order:
Supabase row operations, a list (re)load (`select`), console logging,
and the blocking `alert` / `window.confirm` dialogs. -/
inductive Effect where
  | dbInsert (table : String)
  | dbUpdate (table : String) (id : String)
  | dbDelete (table : String) (id : String)
  | dbSelect (table : String)
  | consoleError
  | alertMsg (msg : String)
  | confirmPrompt (msg : String)
deriving DecidableEq

/-- One chat message held in React state (`role` is "user", "assistant"
or "system"). -/
structure ChatMessage where
  role : String
  content : String
deriving DecidableEq

namespace ChatSection

/-- The fixed system prompt `CLINIC_KB` of App.tsx. -/
def CLINIC_KB : String :=
  "\nVocê é o assistente oficial da clínica MedIntelli.\nRegras:\n- Seja objetivo, cordial e profissional.\n- Responda sobre agendamentos, retornos, orientações gerais, preparo de exames.\n- NÃO dê diagnósticos nem prescrições.\n- Em caso de urgência, oriente procurar pronto-atendimento.\n- Quando tiver dúvida, sugira falar com a equipe da clínica.\n"

/-- The React state of `ChatSection`: `messages`, `input`, `loading`,
`error`. -/
structure ChatState where
  messages : List ChatMessage
  input : String
  loading : Bool
  error : String
deriving DecidableEq

/-- Outcome of the `fetch` to the chat endpoint: an OK response carrying
`data.choices?.[0]?.message?.content` (absent fields modelled as `none`),
a non-OK HTTP status, or a thrown network error. -/
inductive FetchOutcome where
  | ok (answer : Option String)
  | httpErr (status : Nat)
  | netErr
deriving DecidableEq

/-- The single HTTP request shape issued by `handleSend`. -/
structure ChatRequest where
  url : String
  model : String
  msgs : List ChatMessage
deriving DecidableEq

/-- The chat-completion endpoint URL of App.tsx. -/
def chatEndpoint : String := "https://api.openai.com/v1/chat/completions"

/-- Fallback answer used when the response carries no content (the `||`
in `data.choices?.[0]?.message?.content || ...`). -/
def fallbackAnswer : String := "Desculpe, não consegui gerar uma resposta agora."

/-- Inline error text set when the request fails (`catch` branch). -/
def chatErrorText : String := "Erro ao conversar com a IA. Verifique a chave de API."

/-- Inline error text set when the API key is not configured. -/
def noKeyErrorText : String := "VITE_OPENAI_API_KEY não configurado."

/-- `ChatSection.handleSend` of App.tsx as a pure function.  `apiKey` is
`import.meta.env.VITE_OPENAI_API_KEY` (empty string models an unset
variable, which is falsy in JS); `outcome` is the result of the `fetch`,
consulted only when the request is actually issued.  Returns the new
component state and the list of HTTP requests issued. -/
def handleSend (apiKey : String) (outcome : FetchOutcome) (s : ChatState) :
    ChatState × List ChatRequest :=
  if trimStr s.input = "" || s.loading then (s, [])
  else
    let newMessages := s.messages ++ [⟨"user", s.input⟩]
    if apiKey = "" then
      (⟨newMessages, "", false, noKeyErrorText⟩, [])
    else
      let req : ChatRequest :=
        ⟨chatEndpoint, "gpt-4o-mini", ⟨"system", CLINIC_KB⟩ :: newMessages⟩
      match outcome with
      | .ok ans =>
          let answer :=
            match ans with
            | some a => if a = "" then fallbackAnswer else a
            | none => fallbackAnswer
          (⟨newMessages ++ [⟨"assistant", answer⟩], "", false, ""⟩, [req])
      | .httpErr _ => (⟨newMessages, "", false, chatErrorText⟩, [req])
      | .netErr => (⟨newMessages, "", false, chatErrorText⟩, [req])

end ChatSection

/-- The application configuration derived from the environment: the
backend URL, the backend public (anon) key, and the chat API key. -/
structure AppConfig where
  supabaseUrl : String
  supabaseKey : String
  openaiApiKey : String
deriving DecidableEq

/-- The three environment variables the application reads
(`import.meta.env.VITE_*` at App.tsx module scope and inside
`ChatSection.handleSend`). -/
def configEnvVars : List String :=
  ["VITE_SUPABASE_URL", "VITE_SUPABASE_ANON_KEY", "VITE_OPENAI_API_KEY"]

/-- Reading the application configuration from an environment `env`
(a map from variable names to optional values). -/
def readConfig (env : String → Option String) : AppConfig :=
  ⟨(env "VITE_SUPABASE_URL").getD "",
   (env "VITE_SUPABASE_ANON_KEY").getD "",
   (env "VITE_OPENAI_API_KEY").getD ""⟩

/-- A row of the `patients` table as held in React state.  `created_at`
is modelled as a numeric timestamp. -/
structure Patient where
  id : String
  name : String
  cpf : Option String
  phone : Option String
  email : Option String
  birth_date : Option String
  notes : Option String
  created_at : Nat
deriving DecidableEq

namespace PacientesSection

/-- The controlled form of `PacientesSection` (all inputs are strings). -/
structure PacForm where
  name : String
  cpf : String
  phone : String
  email : String
  birth_date : String
  notes : String
deriving DecidableEq

/-- The cleared form the handlers reset to. -/
def emptyForm : PacForm := ⟨"", "", "", "", "", ""⟩

/-- The React state of `PacientesSection`. -/
structure PacState where
  patients : List Patient
  loading : Bool
  editingId : Option String
  form : PacForm
deriving DecidableEq

/-- `PacientesSection.loadPatients`: select all patients (ordered by the
backend); `res = none` models a query error.  On error the list is left
unchanged, the error is logged and an alert is shown. -/
def loadPatients (res : Option (List Patient)) (s : PacState) :
    PacState × List Effect :=
  match res with
  | none =>
      ({ s with loading := false },
       [.dbSelect "patients", .consoleError, .alertMsg "Erro ao carregar pacientes."])
  | some rows =>
      ({ s with patients := rows, loading := false }, [.dbSelect "patients"])

/-- `PacientesSection.handleSubmit`: required-field check on the trimmed
name, then insert (or update when `editingId` is set), then clear the
form and fully reload the list (the reload runs on the error path too).
`dbOk` is whether the mutation succeeded; `res` is the reload result. -/
def handleSubmit (dbOk : Bool) (res : Option (List Patient)) (s : PacState) :
    PacState × List Effect :=
  if trimStr s.form.name = "" then (s, [])
  else
    let mutEffs : List Effect :=
      match s.editingId with
      | some eid =>
          [.dbUpdate "patients" eid] ++
            (if dbOk then [] else [.consoleError, .alertMsg "Erro ao atualizar paciente."])
      | none =>
          [.dbInsert "patients"] ++
            (if dbOk then [] else [.consoleError, .alertMsg "Erro ao salvar paciente."])
    let s1 : PacState := { s with form := emptyForm, editingId := none }
    let r := loadPatients res s1
    (r.1, mutEffs ++ r.2)

/-- `PacientesSection.handleDelete`: confirm dialog, delete the row, and
on success remove it from the local list (no reload). -/
def handleDelete (confirmed : Bool) (dbOk : Bool) (id : String) (s : PacState) :
    PacState × List Effect :=
  let prompt : Effect := .confirmPrompt "Excluir paciente? Isso remove agendamentos?"
  if !confirmed then (s, [prompt])
  else if dbOk then
    ({ s with patients := s.patients.filter (fun p => p.id ≠ id) },
     [prompt, .dbDelete "patients" id])
  else
    (s, [prompt, .dbDelete "patients" id, .consoleError, .alertMsg "Erro ao excluir paciente."])

end PacientesSection

/-- A row of the `waitlist` table as held in React state. -/
structure WaitlistItem where
  id : String
  patient_name : String
  phone : Option String
  reason : Option String
  priority : Nat
  created_at : Nat
deriving DecidableEq

namespace WaitlistSection

/-- The controlled form of `WaitlistSection` (the priority select is the
string "1" or "2"). -/
structure WaitForm where
  patient_name : String
  phone : String
  reason : String
  priority : String
deriving DecidableEq

/-- The cleared form the submit handler resets to. -/
def emptyForm : WaitForm := ⟨"", "", "", "1"⟩

/-- The React state of `WaitlistSection`. -/
structure WaitState where
  items : List WaitlistItem
  loading : Bool
  form : WaitForm
deriving DecidableEq

/-- The order requested from the backend by `loadList`:
`priority` descending first, then `created_at` ascending. -/
def waitlistLE (a b : WaitlistItem) : Bool :=
  b.priority < a.priority || (a.priority == b.priority && a.created_at ≤ b.created_at)

/-- The row order in which the backend answers `loadList`’s query
(`order("priority", descending)` then `order("created_at", ascending)`),
applied to the raw table rows. -/
def sortWaitlist (rows : List WaitlistItem) : List WaitlistItem :=
  rows.mergeSort waitlistLE

/-- `WaitlistSection.loadList`: select the waitlist ordered by priority
descending then created_at ascending; `res = none` models a query error
(logged and alerted, list unchanged). -/
def loadList (res : Option (List WaitlistItem)) (s : WaitState) :
    WaitState × List Effect :=
  match res with
  | none =>
      ({ s with loading := false },
       [.dbSelect "waitlist", .consoleError, .alertMsg "Erro ao carregar fila de espera."])
  | some rows =>
      ({ s with items := sortWaitlist rows, loading := false }, [.dbSelect "waitlist"])

/-- `Number(form.priority) || 1` of the submit handler: a string that
parses to a nonzero number is kept, anything falsy or unparsable
becomes 1. -/
def parsePriority (s : String) : Nat :=
  match s.toNat? with
  | some n => if n = 0 then 1 else n
  | none => 1

/-- `WaitlistSection.handleSubmit`: required-field check on the trimmed
patient name, then insert; on success clear the form and fully reload
the list, on error log and alert (form kept). -/
def handleSubmit (dbOk : Bool) (res : Option (List WaitlistItem)) (s : WaitState) :
    WaitState × List Effect :=
  if trimStr s.form.patient_name = "" then (s, [])
  else if dbOk then
    let r := loadList res { s with form := emptyForm }
    (r.1, [.dbInsert "waitlist"] ++ r.2)
  else
    (s, [.dbInsert "waitlist", .consoleError, .alertMsg "Erro ao adicionar na fila."])

/-- `WaitlistSection.handleRemove`: confirm dialog, delete the row, and
on success remove it from the local list (no reload). -/
def handleRemove (confirmed : Bool) (dbOk : Bool) (id : String) (s : WaitState) :
    WaitState × List Effect :=
  let prompt : Effect := .confirmPrompt "Atender / remover da fila?"
  if !confirmed then (s, [prompt])
  else if dbOk then
    ({ s with items := s.items.filter (fun i => i.id ≠ id) },
     [prompt, .dbDelete "waitlist" id])
  else
    (s, [prompt, .dbDelete "waitlist" id, .consoleError, .alertMsg "Erro ao remover."])

end WaitlistSection

/-- A row of the `holidays` table as held in React state. -/
structure Holiday where
  id : String
  date : String
  description : Option String
  is_blocked : Bool
deriving DecidableEq

/-- A row of the `appointments` table as held in React state. -/
structure Appointment where
  id : String
  patient_id : String
  start_time : String
  status : String
  reason : Option String
deriving DecidableEq

namespace AgendaSection

/-- The controlled form of `AgendaSection`. -/
structure AgendaForm where
  patient_id : String
  date : String
  time : String
  reason : String
deriving DecidableEq

/-- The cleared form the submit handler resets to. -/
def emptyForm : AgendaForm := ⟨"", "", "", ""⟩

/-- The React state of `AgendaSection`. -/
structure AgendaState where
  appointments : List Appointment
  patients : List Patient
  holidays : List Holiday
  loading : Bool
  form : AgendaForm
deriving DecidableEq

/-- `AgendaSection.isHoliday`: true iff some loaded holiday has this
date and is blocked. -/
def isHoliday (holidays : List Holiday) (dateStr : String) : Bool :=
  holidays.any (fun h => h.date == dateStr && h.is_blocked)

/-- `AgendaSection.loadData`: three parallel selects (patients,
appointments, holidays); each list is updated only when its own query
succeeded, and a failed query is ignored with no logging and no
user-visible message. -/
def loadData (pats : Option (List Patient)) (apps : Option (List Appointment))
    (hols : Option (List Holiday)) (s : AgendaState) : AgendaState × List Effect :=
  let s1 := match pats with | some rows => { s with patients := rows } | none => s
  let s2 := match apps with | some rows => { s1 with appointments := rows } | none => s1
  let s3 := match hols with | some rows => { s2 with holidays := rows } | none => s2
  ({ s3 with loading := false },
   [.dbSelect "patients", .dbSelect "appointments", .dbSelect "holidays"])

/-- The confirm-dialog text shown when scheduling on a blocked date. -/
def holidayPrompt : String :=
  "A data está marcada como feriado/bloqueio. Deseja agendar mesmo assim?"

/-- `AgendaSection.handleSubmit`: required-field check on patient id,
date and time; on a blocked date ask for confirmation (`confirmBlocked`
is the user's answer) and abort if declined; then insert the
appointment and on success clear the form and fully reload. -/
def handleSubmit (confirmBlocked : Bool) (dbOk : Bool)
    (pats : Option (List Patient)) (apps : Option (List Appointment))
    (hols : Option (List Holiday)) (s : AgendaState) : AgendaState × List Effect :=
  if s.form.patient_id = "" || s.form.date = "" || s.form.time = "" then (s, [])
  else
    let promptEffs : List Effect :=
      if isHoliday s.holidays s.form.date then [.confirmPrompt holidayPrompt] else []
    if isHoliday s.holidays s.form.date && !confirmBlocked then (s, promptEffs)
    else if dbOk then
      let r := loadData pats apps hols { s with form := emptyForm }
      (r.1, promptEffs ++ [.dbInsert "appointments"] ++ r.2)
    else
      (s, promptEffs ++ [.dbInsert "appointments", .consoleError, .alertMsg "Erro ao agendar."])

end AgendaSection

/-- A row of the `public_validations` table. -/
structure ValidationRecord where
  id : String
  code : String
  patient_name : Option String
  doc_type : Option String
  doc_url : Option String
  valid : Bool
deriving DecidableEq

namespace ValidationSection

/-- The React state of `ValidationSection`. -/
structure ValState where
  code : String
  record : Option ValidationRecord
  loading : Bool
  error : String
deriving DecidableEq

/-- `ValidationSection.handleSearch`: required-field check on the
trimmed code, then a `maybeSingle` select; `res = none` models a query
error (logged, inline error text), `res = some none` no matching row,
`res = some (some r)` a matching row. -/
def handleSearch (res : Option (Option ValidationRecord)) (s : ValState) :
    ValState × List Effect :=
  if trimStr s.code = "" then (s, [])
  else
    match res with
    | none =>
        ({ s with record := none, error := "Erro ao consultar validação.", loading := false },
         [.dbSelect "public_validations", .consoleError])
    | some none =>
        ({ s with record := none, error := "Código não encontrado.", loading := false },
         [.dbSelect "public_validations"])
    | some (some r) =>
        ({ s with record := some r, error := "", loading := false },
         [.dbSelect "public_validations"])

end ValidationSection

namespace MensagensSection

/-- Modelled from the spec: the "Central de Mensagens" draft of App.tsx
is not among the source files under src/ (only the spec describes it).
Per the spec, its messaging section works on flat message rows carrying
an external id and a patient id, fetched in descending-time order;
`sent_at` models the row's time. -/
structure MsgRow where
  external_id : String
  patient_id : String
  sent_at : Nat
  content : String
deriving DecidableEq

/-- Modelled from the spec: the composite conversation key,
"external id + patient id". -/
def convKey (r : MsgRow) : String := r.external_id ++ "|" ++ r.patient_id

/-- Modelled from the spec: one step of the one-pass map-insert — a row
whose key is already present is dropped ("first seen in descending-time
order wins", no other tie-break), otherwise the row is inserted under
its key. -/
def insertConv (acc : List (String × MsgRow)) (r : MsgRow) : List (String × MsgRow) :=
  if acc.any (fun p => p.1 == convKey r) then acc else acc ++ [(convKey r, r)]

/-- Modelled from the spec: the conversation grouping of the "Central de
Mensagens" — a one-pass map-insert over the flat message rows, keyed by
external id + patient id, keeping only the first row seen per key. -/
def groupConversations (rows : List MsgRow) : List (String × MsgRow) :=
  rows.foldl insertConv []

/-- Lookup of a grouped conversation by key (first entry whose key
matches). -/
def findConv (l : List (String × MsgRow)) (k : String) : Option (String × MsgRow) :=
  l.find? (fun p => p.1 == k)

theorem findConv_insertConv (acc : List (String × MsgRow)) (r : MsgRow) (k : String) :
    findConv (insertConv acc r) k =
      (findConv acc k).or (if convKey r = k then some (k, r) else none) := by
  unfold insertConv findConv
  by_cases h : acc.any (fun p => p.1 == convKey r) = true
  · simp only [h, if_true]
    cases hf : acc.find? (fun p => p.1 == k) with
    | some p => simp
    | none =>
        by_cases hk : convKey r = k
        · exfalso
          rw [List.any_eq_true] at h
          obtain ⟨p, hp, hpk⟩ := h
          rw [List.find?_eq_none] at hf
          exact hf p hp (by rw [← hk]; exact hpk)
        · simp [hk]
  · rw [if_neg h, List.find?_append]
    cases hf : acc.find? (fun p => p.1 == k) with
    | some p => rfl
    | none =>
        rw [Option.none_or, Option.none_or]
        by_cases hk : convKey r = k
        · subst hk
          rw [if_pos rfl, List.find?_cons_of_pos _ (by simp)]
        · rw [if_neg hk, List.find?_cons_of_neg _ (by simp [hk]), List.find?_nil]

theorem findConv_foldl (rows : List MsgRow) :
    ∀ (acc : List (String × MsgRow)) (k : String),
      findConv (rows.foldl insertConv acc) k =
        (findConv acc k).or
          ((rows.find? (fun r => convKey r == k)).map (fun r => (k, r))) := by
  induction rows with
  | nil => intro acc k; simp
  | cons r rs ih =>
      intro acc k
      rw [List.foldl_cons, ih, findConv_insertConv, Option.or_assoc]
      by_cases hk : convKey r = k
      · simp [hk, List.find?_cons_of_pos]
      · have : (convKey r == k) = false := by simp [hk]
        simp [hk, List.find?_cons_of_neg, this]

theorem findConv_groupConversations (rows : List MsgRow) (k : String) :
    findConv (groupConversations rows) k =
      (rows.find? (fun r => convKey r == k)).map (fun r => (k, r)) := by
  unfold groupConversations
  rw [findConv_foldl]
  simp [findConv]

theorem keysDistinct_insertConv (acc : List (String × MsgRow)) (r : MsgRow)
    (h : acc.Pairwise (fun p q => p.1 ≠ q.1)) :
    (insertConv acc r).Pairwise (fun p q => p.1 ≠ q.1) := by
  unfold insertConv
  by_cases hm : acc.any (fun p => p.1 == convKey r) = true
  · simpa [hm] using h
  · rw [if_neg hm, List.pairwise_append]
    refine ⟨h, by simp, ?_⟩
    intro p hp q hq
    simp only [List.mem_singleton] at hq
    subst hq
    have hm' : ¬(p.1 == convKey r) = true := fun hq' =>
      hm (List.any_eq_true.mpr ⟨p, hp, hq'⟩)
    simpa using hm'

theorem keysDistinct_foldl (rows : List MsgRow) :
    ∀ acc : List (String × MsgRow),
      acc.Pairwise (fun p q => p.1 ≠ q.1) →
      (rows.foldl insertConv acc).Pairwise (fun p q => p.1 ≠ q.1) := by
  induction rows with
  | nil => intro acc h; simpa using h
  | cons r rs ih =>
      intro acc h
      rw [List.foldl_cons]
      exact ih _ (keysDistinct_insertConv acc r h)

theorem keysDistinct_groupConversations (rows : List MsgRow) :
    (groupConversations rows).Pairwise (fun p q => p.1 ≠ q.1) :=
  keysDistinct_foldl rows [] (by simp)

theorem findConv_of_mem (l : List (String × MsgRow))
    (hd : l.Pairwise (fun p q => p.1 ≠ q.1)) (p : String × MsgRow) (hp : p ∈ l) :
    findConv l p.1 = some p := by
  induction l with
  | nil => cases hp
  | cons q t ih =>
      rw [List.pairwise_cons] at hd
      rcases List.mem_cons.mp hp with h | h
      · subst h
        simp [findConv, List.find?_cons_of_pos]
      · have hne : q.1 ≠ p.1 := hd.1 p h
        have : (q.1 == p.1) = false := by simpa using hne
        unfold findConv
        rw [List.find?_cons_of_neg _ (by simp [this])]
        exact ih hd.2 h

theorem find?_sent_at_max (P : MsgRow → Bool) :
    ∀ rows : List MsgRow,
      rows.Pairwise (fun a b => b.sent_at ≤ a.sent_at) →
      ∀ a : MsgRow, rows.find? P = some a →
      ∀ r ∈ rows, P r = true → r.sent_at ≤ a.sent_at := by
  intro rows
  induction rows with
  | nil => intro _ a hfind; cases hfind
  | cons x t ih =>
      intro hsorted a hfind r hr hPr
      rw [List.pairwise_cons] at hsorted
      by_cases hx : P x = true
      · rw [List.find?_cons_of_pos _ hx] at hfind
        injection hfind with h
        subst h
        rcases List.mem_cons.mp hr with h | h
        · subst h; exact Nat.le_refl _
        · exact hsorted.1 r h
      · rw [List.find?_cons_of_neg _ (by simpa using hx)] at hfind
        rcases List.mem_cons.mp hr with h | h
        · subst h; exact absurd hPr hx
        · exact ih hsorted.2 a hfind r h hPr

end MensagensSection

namespace MensagensSection

/-- Claim C1: the "Central de Mensagens" conversation-grouping logic
groups flat message rows into conversations by the composite string key
external id + patient id and, for every input list of rows in
descending-time order, keeps exactly one conversation per key — namely
the first row seen for that key in the one-pass map-insert (no other
tie-break), which is a most-recent row for that key. -/
theorem C1_conversation_grouping (rows : List MsgRow)
    (hsorted : rows.Pairwise (fun a b => b.sent_at ≤ a.sent_at)) :
    (groupConversations rows).Pairwise (fun p q => p.1 ≠ q.1) ∧
    (∀ p ∈ groupConversations rows,
        p.2 ∈ rows ∧ convKey p.2 = p.1 ∧
        rows.find? (fun r => convKey r == p.1) = some p.2 ∧
        ∀ r ∈ rows, convKey r = p.1 → r.sent_at ≤ p.2.sent_at) ∧
    (∀ r ∈ rows, ∃ p ∈ groupConversations rows, p.1 = convKey r) := by
  refine ⟨keysDistinct_groupConversations rows, ?_, ?_⟩
  · intro p hp
    have hfc : findConv (groupConversations rows) p.1 = some p :=
      findConv_of_mem _ (keysDistinct_groupConversations rows) p hp
    rw [findConv_groupConversations] at hfc
    rw [Option.map_eq_some'] at hfc
    obtain ⟨r0, hfind, hpr⟩ := hfc
    have hr2 : r0 = p.2 := congrArg Prod.snd hpr
    subst hr2
    refine ⟨List.mem_of_find?_eq_some hfind, ?_, hfind, ?_⟩
    · have := List.find?_some hfind
      simpa using this
    · intro r hr hk
      exact find?_sent_at_max _ rows hsorted p.2 hfind r hr (by simp [hk])
  · intro r hr
    have hsome : (rows.find? (fun x => convKey x == convKey r)).isSome :=
      List.find?_isSome.mpr ⟨r, hr, by simp⟩
    obtain ⟨a, ha⟩ := Option.isSome_iff_exists.mp hsome
    have hfc : findConv (groupConversations rows) (convKey r) = some (convKey r, a) := by
      rw [findConv_groupConversations, ha]; rfl
    exact ⟨(convKey r, a), List.mem_of_find?_eq_some hfc, rfl⟩

/-- Concrete instantiation of C1 on a three-row, two-conversation input
in descending-time order. -/
theorem C1_conversation_grouping_witness :
    ([⟨"w1", "p1", 30, "oi"⟩, ⟨"w2", "p2", 20, "tudo bem"⟩,
        ⟨"w1", "p1", 10, "bom dia"⟩] : List MsgRow).Pairwise
      (fun a b => b.sent_at ≤ a.sent_at) ∧
    ((groupConversations [⟨"w1", "p1", 30, "oi"⟩, ⟨"w2", "p2", 20, "tudo bem"⟩,
          ⟨"w1", "p1", 10, "bom dia"⟩]).Pairwise (fun p q => p.1 ≠ q.1) ∧
      (∀ p ∈ groupConversations [⟨"w1", "p1", 30, "oi"⟩, ⟨"w2", "p2", 20, "tudo bem"⟩,
            ⟨"w1", "p1", 10, "bom dia"⟩],
          p.2 ∈ ([⟨"w1", "p1", 30, "oi"⟩, ⟨"w2", "p2", 20, "tudo bem"⟩,
              ⟨"w1", "p1", 10, "bom dia"⟩] : List MsgRow) ∧ convKey p.2 = p.1 ∧
          List.find? (fun r => convKey r == p.1)
              [⟨"w1", "p1", 30, "oi"⟩, ⟨"w2", "p2", 20, "tudo bem"⟩,
                ⟨"w1", "p1", 10, "bom dia"⟩] = some p.2 ∧
          ∀ r ∈ ([⟨"w1", "p1", 30, "oi"⟩, ⟨"w2", "p2", 20, "tudo bem"⟩,
              ⟨"w1", "p1", 10, "bom dia"⟩] : List MsgRow),
            convKey r = p.1 → r.sent_at ≤ p.2.sent_at) ∧
      (∀ r ∈ ([⟨"w1", "p1", 30, "oi"⟩, ⟨"w2", "p2", 20, "tudo bem"⟩,
          ⟨"w1", "p1", 10, "bom dia"⟩] : List MsgRow),
          ∃ p ∈ groupConversations [⟨"w1", "p1", 30, "oi"⟩,
              ⟨"w2", "p2", 20, "tudo bem"⟩, ⟨"w1", "p1", 10, "bom dia"⟩],
            p.1 = convKey r)) :=
  ⟨by decide, C1_conversation_grouping _ (by decide)⟩

end MensagensSection

/-- Claim C2 (counterexample): a chat send with the non-empty input
"Oi" issues no HTTP request at all when a request is already in flight
(`loading = true`), and likewise when the API key is not configured, so
"for every chat send with non-empty input, exactly one HTTPS POST is
issued" is false as stated. -/
theorem C2_counterexample :
    ("Oi" ≠ "" ∧
      (ChatSection.handleSend "sk-test" (ChatSection.FetchOutcome.ok (some "olá"))
          ⟨[⟨"assistant", "Olá!"⟩], "Oi", true, ""⟩).2 = []) ∧
    ("Oi" ≠ "" ∧
      (ChatSection.handleSend "" (ChatSection.FetchOutcome.ok (some "olá"))
          ⟨[⟨"assistant", "Olá!"⟩], "Oi", false, ""⟩).2 = []) := by
  decide

/-- Claim C2 (amended): for every chat send where the trimmed input is
non-empty, no request is already in flight, and the chat API key is
configured, the chat section issues exactly one HTTPS POST to the
chat-completion endpoint whose message list is the fixed system prompt
(`CLINIC_KB`) followed by the full conversation history including the
new user message, in order. -/
theorem C2_chat_send_single_post (apiKey : String)
    (outcome : ChatSection.FetchOutcome) (s : ChatSection.ChatState)
    (hinput : trimStr s.input ≠ "") (hload : s.loading = false) (hkey : apiKey ≠ "") :
    (ChatSection.handleSend apiKey outcome s).2 =
      [⟨ChatSection.chatEndpoint, "gpt-4o-mini",
        ⟨"system", ChatSection.CLINIC_KB⟩ :: (s.messages ++ [⟨"user", s.input⟩])⟩] := by
  cases outcome <;> simp [ChatSection.handleSend, hinput, hload, hkey]

/-- Concrete instantiation of the amended C2. -/
theorem C2_chat_send_single_post_witness :
    trimStr "Oi" ≠ "" ∧ ("sk-test" : String) ≠ "" ∧
    (ChatSection.handleSend "sk-test" (ChatSection.FetchOutcome.ok (some "olá"))
        ⟨[], "Oi", false, ""⟩).2 =
      [⟨ChatSection.chatEndpoint, "gpt-4o-mini",
        ⟨"system", ChatSection.CLINIC_KB⟩ :: (([] : List ChatMessage) ++ [⟨"user", "Oi"⟩])⟩] :=
  ⟨by decide, by decide,
    C2_chat_send_single_post "sk-test" (ChatSection.FetchOutcome.ok (some "olá"))
      ⟨[], "Oi", false, ""⟩ (by decide) rfl (by decide)⟩

/-- Claim C6 (counterexample): "each user action triggers at most one
outstanding network request at a time per component" is false of the
agenda section — a single load action fires its three table queries
through one `Promise.all`, so all three requests are issued together
(and hence are in flight simultaneously): the effect trace of one
`loadData` invocation holds three `select` requests, not at most one. -/
theorem C6_counterexample :
    (AgendaSection.loadData (some []) (some []) (some [])
        ⟨[], [], [], true, AgendaSection.emptyForm⟩).2 =
      [Effect.dbSelect "patients", Effect.dbSelect "appointments",
       Effect.dbSelect "holidays"] ∧
    (AgendaSection.loadData (some []) (some []) (some [])
        ⟨[], [], [], true, AgendaSection.emptyForm⟩).2.length = 3 := by
  decide

/-- Claim C6 (amended): the chat component never has two outstanding
requests: each chat send issues at most one network request, and while a
chat-completion request is in flight (`loading = true`) every further
send action is a no-op (state unchanged, no request issued).  The agenda
(likewise dashboard and whatsapp) load actions, by contrast, issue
several concurrent requests from one user action via `Promise.all`. -/
theorem C6_no_concurrent_requests (apiKey : String)
    (outcome : ChatSection.FetchOutcome) (s : ChatSection.ChatState) :
    (ChatSection.handleSend apiKey outcome s).2.length ≤ 1 ∧
    (s.loading = true → ChatSection.handleSend apiKey outcome s = (s, [])) := by
  constructor
  · unfold ChatSection.handleSend
    split
    · simp
    · split
      · simp
      · cases outcome <;> simp
  · intro h
    unfold ChatSection.handleSend
    simp [h]

/-- Concrete instantiation of C6: a send attempted while a request is in
flight changes nothing and issues nothing. -/
theorem C6_no_concurrent_requests_witness :
    ChatSection.handleSend "sk-test" ChatSection.FetchOutcome.netErr
        ⟨[], "Oi", true, ""⟩ = (⟨[], "Oi", true, ""⟩, []) :=
  (C6_no_concurrent_requests "sk-test" ChatSection.FetchOutcome.netErr
    ⟨[], "Oi", true, ""⟩).2 rfl

/-- Claim C7: the application configuration consists exactly of the
backend URL, the backend public key and the chat API key, read from the
three `VITE_*` environment variables and from nothing else: two
environments agreeing on those three variables yield the same
configuration. -/
theorem C7_config_three_env_vars (env1 env2 : String → Option String)
    (h : ∀ v ∈ configEnvVars, env1 v = env2 v) :
    readConfig env1 = readConfig env2 := by
  have h1 := h "VITE_SUPABASE_URL" (by simp [configEnvVars])
  have h2 := h "VITE_SUPABASE_ANON_KEY" (by simp [configEnvVars])
  have h3 := h "VITE_OPENAI_API_KEY" (by simp [configEnvVars])
  simp [readConfig, h1, h2, h3]

/-- Concrete instantiation of C7: an environment with an extra unrelated
variable yields the same configuration as one without it. -/
theorem C7_config_three_env_vars_witness :
    (∀ v ∈ configEnvVars,
      (fun w => if w = "HOME" then some "/root" else some "x") v =
        (fun _ => (some "x" : Option String)) v) ∧
    readConfig (fun w => if w = "HOME" then some "/root" else some "x") =
      readConfig (fun _ => (some "x" : Option String)) := by
  have h : ∀ v ∈ configEnvVars,
      (fun w => if w = "HOME" then some "/root" else some "x") v =
        (fun _ => (some "x" : Option String)) v := by
    intro v hv
    simp only [configEnvVars, List.mem_cons, List.mem_singleton] at hv
    rcases hv with rfl | rfl | rfl | h
    · rfl
    · rfl
    · rfl
    · cases h
  exact ⟨h, C7_config_three_env_vars _ _ h⟩

/-- Claim C10: when a chat send fails (API key not configured, non-OK
HTTP response, or a thrown error), the user's message remains appended
as the last element of the history with no assistant reply added, the
input stays cleared, a non-empty error text is set, and loading is reset
to false — the history is not rolled back. -/
theorem C10_chat_failure_state (apiKey : String)
    (outcome : ChatSection.FetchOutcome) (s : ChatSection.ChatState)
    (hinput : trimStr s.input ≠ "") (hload : s.loading = false)
    (hfail : apiKey = "" ∨ ∀ ans, outcome ≠ ChatSection.FetchOutcome.ok ans) :
    (ChatSection.handleSend apiKey outcome s).1.messages
        = s.messages ++ [⟨"user", s.input⟩] ∧
    (ChatSection.handleSend apiKey outcome s).1.input = "" ∧
    (ChatSection.handleSend apiKey outcome s).1.error ≠ "" ∧
    (ChatSection.handleSend apiKey outcome s).1.loading = false := by
  by_cases hk : apiKey = ""
  · subst hk
    simp [ChatSection.handleSend, hinput, hload, ChatSection.noKeyErrorText]
  · rcases hfail with hk' | ho
    · exact absurd hk' hk
    · cases outcome with
      | ok ans => exact absurd rfl (ho ans)
      | httpErr n =>
          simp [ChatSection.handleSend, hinput, hload, hk, ChatSection.chatErrorText]
      | netErr =>
          simp [ChatSection.handleSend, hinput, hload, hk, ChatSection.chatErrorText]

/-- Concrete instantiation of C10 on a failing (non-OK HTTP) send. -/
theorem C10_chat_failure_state_witness :
    trimStr "Oi" ≠ "" ∧
    (ChatSection.handleSend "sk-test" (ChatSection.FetchOutcome.httpErr 401)
        ⟨[⟨"assistant", "Olá!"⟩], "Oi", false, ""⟩).1.messages
        = [⟨"assistant", "Olá!"⟩] ++ [⟨"user", "Oi"⟩] ∧
    (ChatSection.handleSend "sk-test" (ChatSection.FetchOutcome.httpErr 401)
        ⟨[⟨"assistant", "Olá!"⟩], "Oi", false, ""⟩).1.input = "" ∧
    (ChatSection.handleSend "sk-test" (ChatSection.FetchOutcome.httpErr 401)
        ⟨[⟨"assistant", "Olá!"⟩], "Oi", false, ""⟩).1.error ≠ "" ∧
    (ChatSection.handleSend "sk-test" (ChatSection.FetchOutcome.httpErr 401)
        ⟨[⟨"assistant", "Olá!"⟩], "Oi", false, ""⟩).1.loading = false := by
  have h := C10_chat_failure_state "sk-test" (ChatSection.FetchOutcome.httpErr 401)
    ⟨[⟨"assistant", "Olá!"⟩], "Oi", false, ""⟩ (by decide) rfl
    (Or.inr (fun ans h => by cases h))
  exact ⟨by decide, h.1, h.2.1, h.2.2.1, h.2.2.2⟩

/-- Claim C3 (counterexample): a confirmed, successful delete in
`PacientesSection` performs only the confirm dialog and the delete — no
reload (`select`) of the patients list follows; the row is instead
removed from the local list state. -/
theorem C3_counterexample :
    (PacientesSection.handleDelete true true "p1"
        ⟨[⟨"p1", "Ana", none, none, none, none, none, 1⟩], false, none,
          PacientesSection.emptyForm⟩).2 =
      [Effect.confirmPrompt "Excluir paciente? Isso remove agendamentos?",
       Effect.dbDelete "patients" "p1"] ∧
    Effect.dbSelect "patients" ∉
      (PacientesSection.handleDelete true true "p1"
        ⟨[⟨"p1", "Ana", none, none, none, none, none, 1⟩], false, none,
          PacientesSection.emptyForm⟩).2 ∧
    (PacientesSection.handleDelete true true "p1"
        ⟨[⟨"p1", "Ana", none, none, none, none, none, 1⟩], false, none,
          PacientesSection.emptyForm⟩).1.patients = [] := by
  decide

/-- Claim C3 (amended): insert and update submits are followed by a full
reload of the section's fetched list (patients always, waitlist on
success), but delete handlers perform no reload: a confirmed successful
delete removes the deleted row from the local list state by filtering. -/
theorem C3_mutation_reload (dbOk : Bool) (resP : Option (List Patient))
    (sP : PacientesSection.PacState) (resW : Option (List WaitlistItem))
    (sW : WaitlistSection.WaitState) (idP idW : String)
    (hP : trimStr sP.form.name ≠ "") (hW : trimStr sW.form.patient_name ≠ "") :
    Effect.dbSelect "patients" ∈ (PacientesSection.handleSubmit dbOk resP sP).2 ∧
    Effect.dbSelect "waitlist" ∈ (WaitlistSection.handleSubmit true resW sW).2 ∧
    Effect.dbSelect "patients" ∉ (PacientesSection.handleDelete true true idP sP).2 ∧
    (PacientesSection.handleDelete true true idP sP).1.patients
        = sP.patients.filter (fun p => p.id ≠ idP) ∧
    Effect.dbSelect "waitlist" ∉ (WaitlistSection.handleRemove true true idW sW).2 ∧
    (WaitlistSection.handleRemove true true idW sW).1.items
        = sW.items.filter (fun i => i.id ≠ idW) := by
  refine ⟨?_, ?_, ?_, ?_, ?_, ?_⟩
  · rcases hEd : sP.editingId with _ | eid <;> cases resP <;> cases dbOk <;>
      simp [PacientesSection.handleSubmit, PacientesSection.loadPatients, hP, hEd]
  · cases resW <;>
      simp [WaitlistSection.handleSubmit, WaitlistSection.loadList, hW]
  · simp [PacientesSection.handleDelete]
  · simp [PacientesSection.handleDelete]
  · simp [WaitlistSection.handleRemove]
  · simp [WaitlistSection.handleRemove]

/-- Concrete instantiation of the amended C3. -/
theorem C3_mutation_reload_witness :
    trimStr "Ana" ≠ "" ∧ trimStr "Bia" ≠ "" ∧
    (Effect.dbSelect "patients" ∈
      (PacientesSection.handleSubmit true (some [])
        ⟨[], false, none, ⟨"Ana", "", "", "", "", ""⟩⟩).2 ∧
    Effect.dbSelect "waitlist" ∈
      (WaitlistSection.handleSubmit true (some [])
        ⟨[], false, ⟨"Bia", "", "", "1"⟩⟩).2 ∧
    Effect.dbSelect "patients" ∉
      (PacientesSection.handleDelete true true "p1"
        ⟨[], false, none, ⟨"Ana", "", "", "", "", ""⟩⟩).2 ∧
    (PacientesSection.handleDelete true true "p1"
        ⟨[], false, none, ⟨"Ana", "", "", "", "", ""⟩⟩).1.patients
        = List.filter (fun p => p.id ≠ "p1") [] ∧
    Effect.dbSelect "waitlist" ∉
      (WaitlistSection.handleRemove true true "w1"
        ⟨[], false, ⟨"Bia", "", "", "1"⟩⟩).2 ∧
    (WaitlistSection.handleRemove true true "w1"
        ⟨[], false, ⟨"Bia", "", "", "1"⟩⟩).1.items
        = List.filter (fun i => i.id ≠ "w1") []) :=
  ⟨by decide, by decide,
    C3_mutation_reload true (some []) ⟨[], false, none, ⟨"Ana", "", "", "", "", ""⟩⟩
      (some []) ⟨[], false, ⟨"Bia", "", "", "1"⟩⟩ "p1" "w1" (by decide) (by decide)⟩

/-- Claim C4: the only application-level validation at form-submit time
is "required field present": whenever the required field is empty
(patient name blank after trimming, waitlist patient name blank after
trimming, appointment missing patient id, date or time), the handler
performs no database operation at all and leaves the component state
unchanged. -/
theorem C4_required_field_validation (dbOkP : Bool) (resP : Option (List Patient))
    (sP : PacientesSection.PacState) (dbOkW : Bool) (resW : Option (List WaitlistItem))
    (sW : WaitlistSection.WaitState) (confirmBlocked dbOkA : Bool)
    (pats : Option (List Patient)) (apps : Option (List Appointment))
    (hols : Option (List Holiday)) (sA : AgendaSection.AgendaState)
    (hP : trimStr sP.form.name = "") (hW : trimStr sW.form.patient_name = "")
    (hA : sA.form.patient_id = "" ∨ sA.form.date = "" ∨ sA.form.time = "") :
    PacientesSection.handleSubmit dbOkP resP sP = (sP, []) ∧
    WaitlistSection.handleSubmit dbOkW resW sW = (sW, []) ∧
    AgendaSection.handleSubmit confirmBlocked dbOkA pats apps hols sA = (sA, []) := by
  refine ⟨?_, ?_, ?_⟩
  · simp [PacientesSection.handleSubmit, hP]
  · simp [WaitlistSection.handleSubmit, hW]
  · rcases hA with h | h | h <;> simp [AgendaSection.handleSubmit, h]

/-- Concrete instantiation of C4 on blank required fields. -/
theorem C4_required_field_validation_witness :
    trimStr "  " = "" ∧ trimStr "" = "" ∧
    (PacientesSection.handleSubmit true (some [])
        ⟨[], false, none, ⟨"  ", "1", "2", "3", "4", "5"⟩⟩
      = (⟨[], false, none, ⟨"  ", "1", "2", "3", "4", "5"⟩⟩, []) ∧
    WaitlistSection.handleSubmit true (some []) ⟨[], false, ⟨"", "t", "r", "2"⟩⟩
      = (⟨[], false, ⟨"", "t", "r", "2"⟩⟩, []) ∧
    AgendaSection.handleSubmit true true (some []) (some []) (some [])
        ⟨[], [], [], false, ⟨"", "2026-10-11", "10:00", "r"⟩⟩
      = (⟨[], [], [], false, ⟨"", "2026-10-11", "10:00", "r"⟩⟩, [])) :=
  ⟨by decide, by decide,
    C4_required_field_validation true (some [])
      ⟨[], false, none, ⟨"  ", "1", "2", "3", "4", "5"⟩⟩ true (some [])
      ⟨[], false, ⟨"", "t", "r", "2"⟩⟩ true true (some []) (some []) (some [])
      ⟨[], [], [], false, ⟨"", "2026-10-11", "10:00", "r"⟩⟩
      (by decide) (by decide) (Or.inl (by decide))⟩

/-- Claim C5 (counterexample): a failed patients query inside
`AgendaSection.loadData` is neither logged to the console nor surfaced
to the user in any way — the effect trace holds only the three selects
and the state keeps the stale (here empty) list. -/
theorem C5_counterexample :
    (AgendaSection.loadData none (some []) (some [])
        ⟨[], [], [], true, AgendaSection.emptyForm⟩).2 =
      [Effect.dbSelect "patients", Effect.dbSelect "appointments",
       Effect.dbSelect "holidays"] ∧
    Effect.consoleError ∉
      (AgendaSection.loadData none (some []) (some [])
        ⟨[], [], [], true, AgendaSection.emptyForm⟩).2 ∧
    (AgendaSection.loadData none (some []) (some [])
        ⟨[], [], [], true, AgendaSection.emptyForm⟩).1.patients = [] := by
  decide

/-- Claim C5 (amended): errors of the single-query operations are caught,
logged and surfaced — a failed patients load logs to console and raises
an alert, a failed validation search logs to console and sets inline
error text — and a failed chat send sets inline error text; no operation
is retried (the failing handlers issue their single query exactly once
and the chat send issues at most one request).  The agenda (and
whatsapp) parallel loads, by contrast, ignore failed queries silently. -/
theorem C5_error_handling (sP : PacientesSection.PacState)
    (sV : ValidationSection.ValState) (sC : ChatSection.ChatState)
    (apiKey : String) (outcome : ChatSection.FetchOutcome)
    (hV : trimStr sV.code ≠ "") (hC : trimStr sC.input ≠ "")
    (hCl : sC.loading = false)
    (hfail : apiKey = "" ∨ ∀ ans, outcome ≠ ChatSection.FetchOutcome.ok ans) :
    (PacientesSection.loadPatients none sP).2 =
      [Effect.dbSelect "patients", Effect.consoleError,
       Effect.alertMsg "Erro ao carregar pacientes."] ∧
    (ValidationSection.handleSearch none sV).2 =
      [Effect.dbSelect "public_validations", Effect.consoleError] ∧
    (ValidationSection.handleSearch none sV).1.error = "Erro ao consultar validação." ∧
    (ChatSection.handleSend apiKey outcome sC).1.error ≠ "" ∧
    (ChatSection.handleSend apiKey outcome sC).2.length ≤ 1 := by
  refine ⟨rfl, ?_, ?_, ?_, ?_⟩
  · simp [ValidationSection.handleSearch, hV]
  · simp [ValidationSection.handleSearch, hV]
  · by_cases hk : apiKey = ""
    · subst hk
      simp [ChatSection.handleSend, hV, hC, hCl, ChatSection.noKeyErrorText]
    · rcases hfail with hk' | ho
      · exact absurd hk' hk
      · cases outcome with
        | ok ans => exact absurd rfl (ho ans)
        | httpErr n =>
            simp [ChatSection.handleSend, hC, hCl, hk, ChatSection.chatErrorText]
        | netErr =>
            simp [ChatSection.handleSend, hC, hCl, hk, ChatSection.chatErrorText]
  · unfold ChatSection.handleSend
    split
    · simp
    · split
      · simp
      · cases outcome <;> simp

/-- Concrete instantiation of the amended C5. -/
theorem C5_error_handling_witness :
    trimStr "ABC123" ≠ "" ∧ trimStr "Oi" ≠ "" ∧
    ((PacientesSection.loadPatients none
        ⟨[], true, none, PacientesSection.emptyForm⟩).2 =
      [Effect.dbSelect "patients", Effect.consoleError,
       Effect.alertMsg "Erro ao carregar pacientes."] ∧
    (ValidationSection.handleSearch none ⟨"ABC123", none, false, ""⟩).2 =
      [Effect.dbSelect "public_validations", Effect.consoleError] ∧
    (ValidationSection.handleSearch none ⟨"ABC123", none, false, ""⟩).1.error
        = "Erro ao consultar validação." ∧
    (ChatSection.handleSend "sk-test" ChatSection.FetchOutcome.netErr
        ⟨[], "Oi", false, ""⟩).1.error ≠ "" ∧
    (ChatSection.handleSend "sk-test" ChatSection.FetchOutcome.netErr
        ⟨[], "Oi", false, ""⟩).2.length ≤ 1) :=
  ⟨by decide, by decide,
    C5_error_handling ⟨[], true, none, PacientesSection.emptyForm⟩
      ⟨"ABC123", none, false, ""⟩ ⟨[], "Oi", false, ""⟩ "sk-test"
      ChatSection.FetchOutcome.netErr (by decide) (by decide) rfl
      (Or.inr (fun ans h => by cases h))⟩

/-- Claim C8: the waitlist as fetched and displayed is sorted with
priority as the primary key descending and created_at ascending as the
tiebreak: the loaded items are the rows in the query's order, and every
adjacent pair satisfies "strictly higher priority, or equal priority and
earlier-or-equal created_at". -/
theorem C8_waitlist_order (rows : List WaitlistItem) (s : WaitlistSection.WaitState) :
    (WaitlistSection.loadList (some rows) s).1.items = WaitlistSection.sortWaitlist rows ∧
    (WaitlistSection.sortWaitlist rows).Chain'
      (fun a b => b.priority < a.priority ∨
        (a.priority = b.priority ∧ a.created_at ≤ b.created_at)) := by
  refine ⟨rfl, ?_⟩
  have hs : (WaitlistSection.sortWaitlist rows).Pairwise
      (fun a b => WaitlistSection.waitlistLE a b = true) := by
    unfold WaitlistSection.sortWaitlist
    apply List.sorted_mergeSort
    · intro a b c hab hbc
      simp only [WaitlistSection.waitlistLE, Bool.or_eq_true, Bool.and_eq_true,
        decide_eq_true_eq, beq_iff_eq] at *
      omega
    · intro a b
      simp only [WaitlistSection.waitlistLE, Bool.or_eq_true, Bool.and_eq_true,
        decide_eq_true_eq, beq_iff_eq]
      omega
  exact List.Chain'.imp
    (fun a b h => by
      simpa only [WaitlistSection.waitlistLE, Bool.or_eq_true, Bool.and_eq_true,
        decide_eq_true_eq, beq_iff_eq] using h)
    hs.chain'

/-- Claim C9: `isHoliday` is true exactly when some loaded holiday has
the given date and is blocked; with all required fields present,
scheduling on a blocked date shows the confirm dialog and inserts if and
only if the user confirms, while on any other date the insert proceeds
with no confirmation prompt. -/
theorem C9_holiday_confirmation (holidays : List Holiday) (d : String)
    (confirmBlocked dbOk : Bool) (pats : Option (List Patient))
    (apps : Option (List Appointment)) (hols : Option (List Holiday))
    (s : AgendaSection.AgendaState)
    (hreq : s.form.patient_id ≠ "" ∧ s.form.date ≠ "" ∧ s.form.time ≠ "") :
    (AgendaSection.isHoliday holidays d = true ↔
      ∃ h ∈ holidays, h.date = d ∧ h.is_blocked = true) ∧
    (AgendaSection.isHoliday s.holidays s.form.date = true →
      ((Effect.dbInsert "appointments" ∈
          (AgendaSection.handleSubmit confirmBlocked dbOk pats apps hols s).2) ↔
        confirmBlocked = true) ∧
      Effect.confirmPrompt AgendaSection.holidayPrompt ∈
        (AgendaSection.handleSubmit confirmBlocked dbOk pats apps hols s).2) ∧
    (AgendaSection.isHoliday s.holidays s.form.date = false →
      Effect.dbInsert "appointments" ∈
        (AgendaSection.handleSubmit confirmBlocked dbOk pats apps hols s).2 ∧
      ∀ m, Effect.confirmPrompt m ∉
        (AgendaSection.handleSubmit confirmBlocked dbOk pats apps hols s).2) := by
  obtain ⟨h1, h2, h3⟩ := hreq
  refine ⟨?_, ?_, ?_⟩
  · simp [AgendaSection.isHoliday, List.any_eq_true]
  · intro hH
    cases confirmBlocked with
    | false =>
        simp [AgendaSection.handleSubmit, h1, h2, h3, hH]
    | true =>
        cases dbOk <;>
          simp [AgendaSection.handleSubmit, AgendaSection.loadData, h1, h2, h3, hH]
  · intro hH
    refine ⟨?_, ?_⟩
    · cases dbOk <;>
        simp [AgendaSection.handleSubmit, AgendaSection.loadData, h1, h2, h3, hH]
    · intro m
      cases dbOk <;>
        simp [AgendaSection.handleSubmit, AgendaSection.loadData, h1, h2, h3, hH]

/-- Concrete instantiation of C9: a blocked date with the user declining
the confirm dialog. -/
theorem C9_holiday_confirmation_witness :
    (("p1" : String) ≠ "" ∧ ("2026-12-25" : String) ≠ "" ∧ ("09:00" : String) ≠ "") ∧
    ((AgendaSection.isHoliday [⟨"h1", "2026-12-25", some "Natal", true⟩] "2026-12-25" = true ↔
      ∃ h ∈ [(⟨"h1", "2026-12-25", some "Natal", true⟩ : Holiday)],
        h.date = "2026-12-25" ∧ h.is_blocked = true) ∧
    (AgendaSection.isHoliday
        ([⟨"h1", "2026-12-25", some "Natal", true⟩] : List Holiday) "2026-12-25" = true →
      ((Effect.dbInsert "appointments" ∈
          (AgendaSection.handleSubmit false true (some []) (some []) (some [])
            ⟨[], [], [⟨"h1", "2026-12-25", some "Natal", true⟩], false,
              ⟨"p1", "2026-12-25", "09:00", ""⟩⟩).2) ↔ false = true) ∧
      Effect.confirmPrompt AgendaSection.holidayPrompt ∈
        (AgendaSection.handleSubmit false true (some []) (some []) (some [])
          ⟨[], [], [⟨"h1", "2026-12-25", some "Natal", true⟩], false,
            ⟨"p1", "2026-12-25", "09:00", ""⟩⟩).2) ∧
    (AgendaSection.isHoliday
        ([⟨"h1", "2026-12-25", some "Natal", true⟩] : List Holiday) "2026-12-25" = false →
      Effect.dbInsert "appointments" ∈
        (AgendaSection.handleSubmit false true (some []) (some []) (some [])
          ⟨[], [], [⟨"h1", "2026-12-25", some "Natal", true⟩], false,
            ⟨"p1", "2026-12-25", "09:00", ""⟩⟩).2 ∧
      ∀ m, Effect.confirmPrompt m ∉
        (AgendaSection.handleSubmit false true (some []) (some []) (some [])
          ⟨[], [], [⟨"h1", "2026-12-25", some "Natal", true⟩], false,
            ⟨"p1", "2026-12-25", "09:00", ""⟩⟩).2)) :=
  ⟨⟨by decide, by decide, by decide⟩,
    C9_holiday_confirmation [⟨"h1", "2026-12-25", some "Natal", true⟩] "2026-12-25"
      false true (some []) (some []) (some [])
      ⟨[], [], [⟨"h1", "2026-12-25", some "Natal", true⟩], false,
        ⟨"p1", "2026-12-25", "09:00", ""⟩⟩
      ⟨by decide, by decide, by decide⟩⟩
